import Mathlib

/-!
Shallow embedding of the Pomo timer engine (`src-tauri/src/timer.rs`).

Monotonic instants (`std::time::Instant`) are modelled as `Nat` milliseconds
since an arbitrary origin; every operation that calls `Instant::now()` in the
source takes the sampled instant as an explicit `now : Nat` argument.
`Duration` values in the source are constructed from whole seconds or whole
milliseconds, so `duration_to_ms` is the identity on this model and instant
subtraction `end.duration_since(now)` (saturating at zero) is `Nat`
subtraction.  `u64` arithmetic in the engine never overflows for `u32`-valid
planned durations; the one explicitly clamped machine conversion,
`u32::try_from(..).unwrap_or(u32::MAX)`, is modelled with an explicit test
against `2 ^ 32 - 1`, and `saturating_sub` is `Nat` subtraction.
-/

namespace Pomo

/-- Enum `TimerState` from timer.rs. -/
inductive TimerState where
  | Idle
  | Running
  | Paused
deriving DecidableEq, Repr

/-- Enum `IntervalType` from timer.rs. -/
inductive IntervalType where
  | Work
  | ShortBreak
  | LongBreak
deriving DecidableEq, Repr

/-- The in-memory session state `TimerInner` (timer.rs lines 70-81). -/
structure TimerInner where
  state : TimerState
  interval_type : IntervalType
  end_instant : Option Nat
  remaining_ms : Nat
  planned_duration_seconds : Nat
  interval_id : Option Int
  completed_work_count : Nat
  overtime : Bool
  break_overtime_enabled : Bool
  overtime_start : Option Nat
deriving DecidableEq, Repr

/-- The `TimerStatus` payload returned by commands (timer.rs lines 56-66). -/
structure TimerStatus where
  state : TimerState
  interval_type : IntervalType
  remaining_ms : Nat
  planned_duration_seconds : Nat
  interval_id : Option Int
  completed_work_count : Nat
  overtime : Bool
  overtime_ms : Nat
deriving DecidableEq, Repr

/-- Constant `u32::MAX`. -/
def U32_MAX : Nat := 2 ^ 32 - 1

/-- Constructor `TimerInner::new` (timer.rs lines 89-102). -/
def TimerInner.new : TimerInner :=
  { state := .Idle
    interval_type := .Work
    end_instant := none
    remaining_ms := 0
    planned_duration_seconds := 0
    interval_id := none
    completed_work_count := 0
    overtime := false
    break_overtime_enabled := false
    overtime_start := none }

/-- Method `TimerInner::compute_remaining_ms` (timer.rs lines 104-120).  `now` is the
`Instant::now()` sampled inside the Rust method. -/
def TimerInner.compute_remaining_ms (t : TimerInner) (now : Nat) : Nat :=
  if t.overtime then 0
  else
    match t.state with
    | .Running =>
      match t.end_instant with
      | none => 0
      | some e => if now < e then e - now else 0
    | .Paused => t.remaining_ms
    | .Idle => 0

/-- Method `TimerInner::compute_overtime_ms` (timer.rs lines 122-130). -/
def TimerInner.compute_overtime_ms (t : TimerInner) (now : Nat) : Nat :=
  if t.overtime then
    match t.overtime_start with
    | none => 0
    | some s => now - s
  else 0

/-- Method `TimerInner::enter_overtime` (timer.rs lines 132-135). -/
def TimerInner.enter_overtime (t : TimerInner) (now : Nat) : TimerInner :=
  { t with overtime := true, overtime_start := some now }

/-- Method `TimerInner::status` (timer.rs lines 137-148). -/
def TimerInner.status (t : TimerInner) (now : Nat) : TimerStatus :=
  { state := t.state
    interval_type := t.interval_type
    remaining_ms := t.compute_remaining_ms now
    planned_duration_seconds := t.planned_duration_seconds
    interval_id := t.interval_id
    completed_work_count := t.completed_work_count
    overtime := t.overtime
    overtime_ms := t.compute_overtime_ms now }

/-- Method `TimerInner::start` (timer.rs lines 151-168).  The Rust method mutates
`&mut self` and returns `Result<(), &str>`; here the (possibly unchanged)
state is returned alongside the result, the error branch returning the
receiver untouched exactly as the early `return Err` does. -/
def TimerInner.start (t : TimerInner) (it : IntervalType) (duration_seconds : Nat)
    (id : Int) (now : Nat) : Except String Unit × TimerInner :=
  if t.state ≠ .Idle then (.error "Timer is already running or paused", t)
  else
    (.ok (),
      { t with
        state := .Running
        interval_type := it
        planned_duration_seconds := duration_seconds
        interval_id := some id
        end_instant := some (now + duration_seconds * 1000)
        remaining_ms := duration_seconds * 1000 })

/-- Method `TimerInner::pause` (timer.rs lines 171-179). -/
def TimerInner.pause (t : TimerInner) (now : Nat) : Except String Unit × TimerInner :=
  if t.state ≠ .Running then (.error "Timer is not running", t)
  else
    (.ok (),
      { t with
        remaining_ms := t.compute_remaining_ms now
        state := .Paused
        end_instant := none })

/-- Method `TimerInner::resume` (timer.rs lines 182-189). -/
def TimerInner.resume (t : TimerInner) (now : Nat) : Except String Unit × TimerInner :=
  if t.state ≠ .Paused then (.error "Timer is not paused", t)
  else
    (.ok (),
      { t with
        state := .Running
        end_instant := some (now + t.remaining_ms) })

/-- Method `TimerInner::cancel` (timer.rs lines 193-221).  Returns the elapsed whole
seconds clamped to `u32::MAX` (the `u32::try_from(..).unwrap_or(u32::MAX)` of
the source); `saturating_sub` is `Nat` subtraction. -/
def TimerInner.cancel (t : TimerInner) (now : Nat) : Except String Nat × TimerInner :=
  if t.state = .Idle then (.error "Timer is not active", t)
  else if t.overtime then
    (.ok 0,
      { t with
        state := .Idle
        end_instant := none
        remaining_ms := 0
        overtime := false
        overtime_start := none
        interval_id := none })
  else
    let remaining_ms := t.compute_remaining_ms now
    let planned_ms := t.planned_duration_seconds * 1000
    let elapsed_ms := planned_ms - remaining_ms
    let elapsed_seconds := elapsed_ms / 1000
    (.ok (if elapsed_seconds ≤ U32_MAX then elapsed_seconds else U32_MAX),
      { t with
        state := .Idle
        end_instant := none
        remaining_ms := 0
        overtime := false
        overtime_start := none })

/-- Method `TimerInner::complete` (timer.rs lines 224-236). -/
def TimerInner.complete (t : TimerInner) : TimerInner :=
  { t with
    completed_work_count :=
      match t.interval_type with
      | .Work => t.completed_work_count + 1
      | .LongBreak => 0
      | .ShortBreak => t.completed_work_count
    state := .Idle
    end_instant := none
    remaining_ms := 0
    interval_id := none
    overtime := false
    overtime_start := none }

-- ── Command surface and scheduler models ─────────────────────

/-- Observable effect of the `start_timer` Tauri command (timer.rs lines
446-486).  `settingVal` is the outcome of the `user_settings` query for
`break_overtime_enabled` (`none` = row missing or the query failed, which the
source maps to `"false"` via `unwrap_or_else`); `newId` is the rowid returned
by `db_insert_interval`; `inserted` records the interval row the command
inserts; `settingRead` and `engineStartCalled` record whether the command
reached the setting read and the engine `start` call. -/
structure StartResult where
  result : Except String TimerStatus
  timer : TimerInner
  inserted : Option (IntervalType × Nat)
  settingRead : Bool
  engineStartCalled : Bool
deriving Repr

/-- The `start_timer` command (timer.rs lines 446-486): reject a zero
duration, read the overtime setting, insert the interval row, set
`break_overtime_enabled` on the engine and call `TimerInner::start`. -/
def start_timer (t : TimerInner) (it : IntervalType) (duration_seconds : Nat)
    (settingVal : Option String) (newId : Int) (now : Nat) : StartResult :=
  if duration_seconds = 0 then
    ⟨.error "Duration must be greater than zero", t, none, false, false⟩
  else
    let break_overtime_enabled :=
      (match settingVal with
       | some v => v
       | none => "false") == "true"
    let inserted := some (it, duration_seconds)
    let t₁ := { t with break_overtime_enabled := break_overtime_enabled }
    match t₁.start it duration_seconds newId now with
    | (.error e, t₂) => ⟨.error e, t₂, inserted, true, true⟩
    | (.ok _, t₂) => ⟨.ok (t₂.status now), t₂, inserted, true, true⟩

/-- Observable effect of the `cancel_timer` Tauri command (timer.rs lines
520-542).  `dbCancelWrite` is the `db_cancel_interval` finalization the
command performs (interval id and elapsed seconds), `none` when no write is
made (overtime case or engine error). -/
structure CancelResult where
  result : Except String TimerStatus
  timer : TimerInner
  dbCancelWrite : Option (Int × Nat)
deriving Repr

/-- The `cancel_timer` command (timer.rs lines 520-542): read the interval id
and overtime flag, call `TimerInner::cancel`, clear `interval_id` when the
session was not in overtime, and write the `cancelled` finalization only in
the non-overtime case. -/
def cancel_timer (t : TimerInner) (now : Nat) : CancelResult :=
  let id := t.interval_id.getD 0
  let was_overtime := t.overtime
  match t.cancel now with
  | (.error e, t') => ⟨.error e, t', none⟩
  | (.ok elapsed, t₁) =>
    let t₂ := if was_overtime then t₁ else { t₁ with interval_id := none }
    ⟨.ok (t₂.status now), t₂, if was_overtime then none else some (id, elapsed)⟩

/-- The overtime re-entry performed by the scheduler inside its second
critical section (timer.rs lines 369-379): `complete()`, then re-enter
`Running` with the interval kind `κ` observed in the first critical section,
then `enter_overtime`. -/
def overtime_reenter (t : TimerInner) (κ : IntervalType) (now : Nat) : TimerInner :=
  ({ t.complete with state := TimerState.Running, interval_type := κ }).enter_overtime now

/-- Predicate `matches!(interval_type, ShortBreak | LongBreak)` (timer.rs line 363). -/
def IntervalType.isBreakKind : IntervalType → Bool
  | .Work => false
  | .ShortBreak => true
  | .LongBreak => true

/-- Observable effect of one iteration of the scheduler loop in
`spawn_tick_task` (timer.rs lines 321-437).  `timer` is the engine state
after the iteration, `exited` whether the task `return`s, `calledComplete`
whether `TimerInner::complete` was invoked, `emittedComplete` whether a
`timer-complete` event was emitted, and `dbFinalize` the
`db_complete_interval` write (interval id, planned duration). -/
structure TickResult where
  timer : TimerInner
  exited : Bool
  calledComplete : Bool
  emittedComplete : Bool
  dbFinalize : Option (Int × Nat)
deriving DecidableEq, Repr

/-- One iteration of the scheduler loop (timer.rs lines 321-437).  The loop
takes the lock twice: `tFirst` is the engine state observed in the first
critical section (lines 327-357) and `tSecond` the state observed in the
second critical section at a deadline crossing (lines 368-380 or 401-409);
a concurrent command may change the state between the two.  `now` models the
`Instant::now()` samples of the iteration. -/
def tick_iteration (tFirst tSecond : TimerInner) (now : Nat) : TickResult :=
  if tFirst.state ≠ .Running then ⟨tSecond, true, false, false, none⟩
  else if tFirst.overtime then ⟨tSecond, false, false, false, none⟩
  else
    match tFirst.end_instant with
    | none => ⟨tSecond, true, false, false, none⟩
    | some e =>
      if e ≤ now then
        if tFirst.interval_type.isBreakKind && tFirst.break_overtime_enabled then
          if tSecond.state ≠ .Running then ⟨tSecond, true, false, false, none⟩
          else
            ⟨overtime_reenter tSecond tFirst.interval_type now, false, true, true,
              some (tFirst.interval_id.getD 0, tFirst.planned_duration_seconds)⟩
        else
          if tSecond.state ≠ .Running then ⟨tSecond, true, false, false, none⟩
          else
            ⟨tSecond.complete, true, true, true,
              some (tFirst.interval_id.getD 0, tFirst.planned_duration_seconds)⟩
      else ⟨tSecond, false, false, false, none⟩

-- ── Reachability ─────────────────────────────────────────────

/-- One atomic mutation of the shared session, as performed inside a lock
critical section by a command or by the scheduler: the `start_timer` command
(which sets `break_overtime_enabled` before calling `start`), `pause`,
`resume`, the `cancel_timer` command (which clears `interval_id` after a
non-overtime cancel), the scheduler's normal completion (guarded only by the
re-checked `state == Running`), and the scheduler's overtime re-entry
(same guard; `κ` is the interval kind observed in its first critical
section). -/
inductive Step : TimerInner → TimerInner → Prop where
  | start {t t' : TimerInner} (it : IntervalType) (d : Nat) (id : Int) (b : Bool)
      (now : Nat)
      (h : ({ t with break_overtime_enabled := b }).start it d id now = (Except.ok (), t')) :
      Step t t'
  | pause {t t' : TimerInner} (now : Nat)
      (h : t.pause now = (Except.ok (), t')) : Step t t'
  | resume {t t' : TimerInner} (now : Nat)
      (h : t.resume now = (Except.ok (), t')) : Step t t'
  | cancel {t t' : TimerInner} (now e : Nat)
      (h : t.cancel now = (Except.ok e, t')) :
      Step t { t' with interval_id := none }
  | complete {t : TimerInner} (h : t.state = TimerState.Running) : Step t t.complete
  | reenter {t : TimerInner} (κ : IntervalType) (now : Nat)
      (h : t.state = TimerState.Running) : Step t (overtime_reenter t κ now)

/-- Session states reachable from the initial `Idle` session. -/
inductive Reachable : TimerInner → Prop where
  | init : Reachable TimerInner.new
  | step {t t' : TimerInner} (hr : Reachable t) (hs : Step t t') : Reachable t'

-- ── Concrete sessions used by witnesses and counterexamples ──

/-- A running work session: 5 planned seconds, started at instant 0. -/
def fixRunning : TimerInner :=
  { state := .Running
    interval_type := .Work
    end_instant := some 5000
    remaining_ms := 5000
    planned_duration_seconds := 5
    interval_id := some 7
    completed_work_count := 0
    overtime := false
    break_overtime_enabled := false
    overtime_start := none }

/-- A paused work session with 3000 ms left. -/
def fixPaused : TimerInner :=
  { state := .Paused
    interval_type := .Work
    end_instant := none
    remaining_ms := 3000
    planned_duration_seconds := 5
    interval_id := some 7
    completed_work_count := 2
    overtime := false
    break_overtime_enabled := false
    overtime_start := none }

/-- A short-break session running in overtime since instant 1000. -/
def fixOvertime : TimerInner :=
  { state := .Running
    interval_type := .ShortBreak
    end_instant := none
    remaining_ms := 0
    planned_duration_seconds := 1
    interval_id := none
    completed_work_count := 3
    overtime := true
    break_overtime_enabled := true
    overtime_start := some 1000 }

/-- A paused session whose planned duration exceeds what fits in `u32`
whole seconds once fully elapsed. -/
def fixBig : TimerInner :=
  { state := .Paused
    interval_type := .Work
    end_instant := none
    remaining_ms := 0
    planned_duration_seconds := 2 ^ 32
    interval_id := some 9
    completed_work_count := 0
    overtime := false
    break_overtime_enabled := false
    overtime_start := none }

/-- Step 1 of the C2 trace: a one-second short break started at instant 0
with the overtime setting enabled. -/
def cex1 : TimerInner :=
  { state := .Running
    interval_type := .ShortBreak
    end_instant := some 1000
    remaining_ms := 1000
    planned_duration_seconds := 1
    interval_id := some 1
    completed_work_count := 0
    overtime := false
    break_overtime_enabled := true
    overtime_start := none }

/-- Step 2 of the C2 trace: the scheduler's overtime re-entry at the
deadline (instant 1000). -/
def cex2 : TimerInner :=
  { state := .Running
    interval_type := .ShortBreak
    end_instant := none
    remaining_ms := 0
    planned_duration_seconds := 1
    interval_id := none
    completed_work_count := 0
    overtime := true
    break_overtime_enabled := true
    overtime_start := some 1000 }

/-- Step 3 of the C2 trace: `pause` during overtime (instant 2000). -/
def cex3 : TimerInner :=
  { state := .Paused
    interval_type := .ShortBreak
    end_instant := none
    remaining_ms := 0
    planned_duration_seconds := 1
    interval_id := none
    completed_work_count := 0
    overtime := true
    break_overtime_enabled := true
    overtime_start := some 1000 }

/-- Step 4 of the C2 trace: `resume` during overtime (instant 3000) — a
`Running` session with `overtime = true` and a `Some` deadline. -/
def cex4 : TimerInner :=
  { state := .Running
    interval_type := .ShortBreak
    end_instant := some 3000
    remaining_ms := 0
    planned_duration_seconds := 1
    interval_id := none
    completed_work_count := 0
    overtime := true
    break_overtime_enabled := true
    overtime_start := some 1000 }

/-- Session `fixRunning` after `pause` at instant 2000. -/
def fixMidPaused : TimerInner :=
  { state := .Paused
    interval_type := .Work
    end_instant := none
    remaining_ms := 3000
    planned_duration_seconds := 5
    interval_id := some 7
    completed_work_count := 0
    overtime := false
    break_overtime_enabled := false
    overtime_start := none }

/-- Session `fixMidPaused` after `resume` at instant 2600. -/
def fixMidResumed : TimerInner :=
  { state := .Running
    interval_type := .Work
    end_instant := some 5600
    remaining_ms := 3000
    planned_duration_seconds := 5
    interval_id := some 7
    completed_work_count := 0
    overtime := false
    break_overtime_enabled := false
    overtime_start := none }

-- ── Helper inversion lemmas ──────────────────────────────────

theorem start_ok_inv {t t' : TimerInner} {it : IntervalType} {d : Nat} {id : Int}
    {now : Nat} {u : Unit} (h : t.start it d id now = (Except.ok u, t')) :
    t.state = .Idle ∧
    t' = { t with
           state := .Running
           interval_type := it
           planned_duration_seconds := d
           interval_id := some id
           end_instant := some (now + d * 1000)
           remaining_ms := d * 1000 } := by
  unfold TimerInner.start at h
  split at h
  · simp at h
  · next hs => exact ⟨not_not.mp hs, ((Prod.mk.injEq _ _ _ _).mp h).2.symm⟩

theorem pause_ok_inv {t t' : TimerInner} {now : Nat} {u : Unit}
    (h : t.pause now = (Except.ok u, t')) :
    t.state = .Running ∧
    t' = { t with
           remaining_ms := t.compute_remaining_ms now
           state := .Paused
           end_instant := none } := by
  unfold TimerInner.pause at h
  split at h
  · simp at h
  · next hs => exact ⟨not_not.mp hs, ((Prod.mk.injEq _ _ _ _).mp h).2.symm⟩

theorem resume_ok_inv {t t' : TimerInner} {now : Nat} {u : Unit}
    (h : t.resume now = (Except.ok u, t')) :
    t.state = .Paused ∧
    t' = { t with
           state := .Running
           end_instant := some (now + t.remaining_ms) } := by
  unfold TimerInner.resume at h
  split at h
  · simp at h
  · next hs => exact ⟨not_not.mp hs, ((Prod.mk.injEq _ _ _ _).mp h).2.symm⟩

theorem cancel_ok_inv {t t' : TimerInner} {now e : Nat}
    (h : t.cancel now = (Except.ok e, t')) :
    t.state ≠ .Idle ∧ t'.state = .Idle ∧ t'.end_instant = none ∧
    t'.completed_work_count = t.completed_work_count := by
  unfold TimerInner.cancel at h
  split at h
  · simp at h
  · next hs =>
    split at h
    · obtain ⟨-, ht⟩ := (Prod.mk.injEq _ _ _ _).mp h
      exact ⟨hs, by simp [← ht]⟩
    · obtain ⟨-, ht⟩ := (Prod.mk.injEq _ _ _ _).mp h
      exact ⟨hs, by simp [← ht]⟩

-- ── Claim theorems ───────────────────────────────────────────

/-- C1: `complete()` increments `completed_work_count` by exactly 1 for a
`Work` interval, resets it to 0 for a `LongBreak`, and leaves it unchanged
for a `ShortBreak`; `cancel()` never changes `completed_work_count` in any
state (including overtime — both its success branches and its error branch
leave the counter untouched). -/
theorem complete_updates_count_cancel_preserves_count (t : TimerInner) (now : Nat) :
    (t.complete).completed_work_count =
      (match t.interval_type with
       | IntervalType.Work => t.completed_work_count + 1
       | IntervalType.LongBreak => 0
       | IntervalType.ShortBreak => t.completed_work_count) ∧
    ((t.cancel now).2).completed_work_count = t.completed_work_count := by
  refine ⟨rfl, ?_⟩
  unfold TimerInner.cancel
  split
  · rfl
  · split <;> rfl

/-- C4: every illegal transition fails with an error and returns the session
unchanged: `start` fails unless `Idle`, `pause` fails unless `Running`,
`resume` fails unless `Paused`, `cancel` fails when `Idle`, and in each
failing case the returned session equals the input session. -/
theorem illegal_transitions_fail_without_mutation (t : TimerInner)
    (it : IntervalType) (d : Nat) (id : Int) (now : Nat) :
    (t.state ≠ .Idle →
      t.start it d id now = (Except.error "Timer is already running or paused", t)) ∧
    (t.state ≠ .Running →
      t.pause now = (Except.error "Timer is not running", t)) ∧
    (t.state ≠ .Paused →
      t.resume now = (Except.error "Timer is not paused", t)) ∧
    (t.state = .Idle →
      t.cancel now = (Except.error "Timer is not active", t)) := by
  refine ⟨?_, ?_, ?_, ?_⟩ <;> intro h <;>
    simp [TimerInner.start, TimerInner.pause, TimerInner.resume, TimerInner.cancel, h]

/-- Witness for C4 at concrete sessions: a running session rejects `start`,
and the idle session rejects `pause`, `resume` and `cancel`, each unchanged. -/
theorem illegal_transitions_fail_without_mutation_witness :
    fixRunning.start .Work 5 1 0 =
      (Except.error "Timer is already running or paused", fixRunning) ∧
    TimerInner.new.pause 0 = (Except.error "Timer is not running", TimerInner.new) ∧
    TimerInner.new.resume 0 = (Except.error "Timer is not paused", TimerInner.new) ∧
    TimerInner.new.cancel 0 = (Except.error "Timer is not active", TimerInner.new) :=
  ⟨(illegal_transitions_fail_without_mutation fixRunning .Work 5 1 0).1 (by decide),
   (illegal_transitions_fail_without_mutation TimerInner.new .Work 5 1 0).2.1 (by decide),
   (illegal_transitions_fail_without_mutation TimerInner.new .Work 5 1 0).2.2.1 (by decide),
   (illegal_transitions_fail_without_mutation TimerInner.new .Work 5 1 0).2.2.2 (by decide)⟩

/-- C6: `status()` is a total read in every session state and reports the
state, interval kind, work count and interval record id verbatim;
`remaining_ms` is 0 while overtime or `Idle`, the stored snapshot while
`Paused`, and `deadline - now` clamped at 0 while `Running`; `overtime_ms`
is the time elapsed since `overtime_start` when overtime is on and 0
otherwise. -/
theorem status_reports_all_fields (t : TimerInner) (now : Nat) :
    (t.status now).state = t.state ∧
    (t.status now).interval_type = t.interval_type ∧
    (t.status now).completed_work_count = t.completed_work_count ∧
    (t.status now).interval_id = t.interval_id ∧
    (t.overtime = true → (t.status now).remaining_ms = 0) ∧
    (t.overtime = false → t.state = .Idle → (t.status now).remaining_ms = 0) ∧
    (t.overtime = false → t.state = .Paused →
      (t.status now).remaining_ms = t.remaining_ms) ∧
    (t.overtime = false → t.state = .Running → ∀ e, t.end_instant = some e →
      (t.status now).remaining_ms = e - now) ∧
    (t.overtime = true → ∀ s, t.overtime_start = some s →
      (t.status now).overtime_ms = now - s) ∧
    (t.overtime = false → (t.status now).overtime_ms = 0) := by
  refine ⟨rfl, rfl, rfl, rfl, ?_, ?_, ?_, ?_, ?_, ?_⟩
  · intro h
    simp [TimerInner.status, TimerInner.compute_remaining_ms, h]
  · intro h hs
    simp [TimerInner.status, TimerInner.compute_remaining_ms, h, hs]
  · intro h hs
    simp [TimerInner.status, TimerInner.compute_remaining_ms, h, hs]
  · intro h hs e he
    simp only [TimerInner.status, TimerInner.compute_remaining_ms, h, hs, he,
      Bool.false_eq_true, if_false]
    split <;> omega
  · intro h s hs
    simp [TimerInner.status, TimerInner.compute_overtime_ms, h, hs]
  · intro h
    simp [TimerInner.status, TimerInner.compute_overtime_ms, h]

/-- Witness for C6 at concrete sessions: the overtime session reports
`remaining_ms = 0` and elapsed overtime, the paused session its snapshot,
and the running session its clamped deadline distance. -/
theorem status_reports_all_fields_witness :
    (fixOvertime.status 2500).remaining_ms = 0 ∧
    (fixOvertime.status 2500).overtime_ms = 2500 - 1000 ∧
    (TimerInner.new.status 3).remaining_ms = 0 ∧
    (fixPaused.status 9).remaining_ms = fixPaused.remaining_ms ∧
    (fixRunning.status 2000).remaining_ms = 5000 - 2000 ∧
    (fixRunning.status 2000).overtime_ms = 0 :=
  ⟨(status_reports_all_fields fixOvertime 2500).2.2.2.2.1 rfl,
   (status_reports_all_fields fixOvertime 2500).2.2.2.2.2.2.2.2.1 rfl 1000 rfl,
   (status_reports_all_fields TimerInner.new 3).2.2.2.2.2.1 rfl rfl,
   (status_reports_all_fields fixPaused 9).2.2.2.2.2.2.1 rfl rfl,
   (status_reports_all_fields fixRunning 2000).2.2.2.2.2.2.2.1 rfl rfl 5000 rfl,
   (status_reports_all_fields fixRunning 2000).2.2.2.2.2.2.2.2.2 rfl⟩

/-- C9: for every non-overtime cancel the returned elapsed value is the
saturating `u32` conversion of `(planned_ms saturating-sub remaining_ms) /
1000`, and whenever that whole-second value exceeds `u32::MAX` the returned
value is exactly `u32::MAX` (no failure, no wrap). -/
theorem cancel_elapsed_saturating_conversion (t : TimerInner) (now : Nat)
    (h1 : t.state ≠ .Idle) (h2 : t.overtime = false) :
    (t.cancel now).1 =
      Except.ok
        (min ((t.planned_duration_seconds * 1000 - t.compute_remaining_ms now) / 1000)
          U32_MAX) ∧
    (U32_MAX < (t.planned_duration_seconds * 1000 - t.compute_remaining_ms now) / 1000 →
      (t.cancel now).1 = Except.ok U32_MAX) := by
  have hmain : (t.cancel now).1 =
      Except.ok
        (min ((t.planned_duration_seconds * 1000 - t.compute_remaining_ms now) / 1000)
          U32_MAX) := by
    simp only [TimerInner.cancel, h1, h2, Bool.false_eq_true, if_false, if_neg h1]
    congr 1
  refine ⟨hmain, fun hgt => ?_⟩
  rw [hmain, Nat.min_eq_right (Nat.le_of_lt hgt)]

/-- Witness for C9: cancelling the fully elapsed `2 ^ 32`-second session
returns exactly `u32::MAX`. -/
theorem cancel_elapsed_saturating_conversion_witness :
    (fixBig.cancel 0).1 =
      Except.ok
        (min ((fixBig.planned_duration_seconds * 1000 - fixBig.compute_remaining_ms 0) / 1000)
          U32_MAX) ∧
    (U32_MAX < (fixBig.planned_duration_seconds * 1000 - fixBig.compute_remaining_ms 0) / 1000 →
      (fixBig.cancel 0).1 = Except.ok U32_MAX) :=
  cancel_elapsed_saturating_conversion fixBig 0 (by decide) rfl

/-- C3: `cancel()` succeeds in any state except `Idle`, always resets the
session to `Idle`, and has two cases: in overtime it returns
`elapsed_seconds = 0` and the `cancel_timer` command writes no second
finalization; otherwise it returns
`(planned_ms saturating-sub remaining_ms_now) / 1000` whole seconds and the
command marks the interval record cancelled with that elapsed value.  The
`u32`-validity bound on the planned duration makes the final `u32`
conversion exact. -/
theorem cancel_two_cases (t : TimerInner) (now : Nat)
    (h : t.state ≠ .Idle) (hWF : t.planned_duration_seconds < 2 ^ 32) :
    (t.overtime = true →
      t.cancel now =
        (Except.ok 0,
          { t with
            state := .Idle
            end_instant := none
            remaining_ms := 0
            overtime := false
            overtime_start := none
            interval_id := none }) ∧
      (cancel_timer t now).dbCancelWrite = none) ∧
    (t.overtime = false →
      t.cancel now =
        (Except.ok ((t.planned_duration_seconds * 1000 - t.compute_remaining_ms now) / 1000),
          { t with
            state := .Idle
            end_instant := none
            remaining_ms := 0
            overtime := false
            overtime_start := none }) ∧
      (cancel_timer t now).dbCancelWrite =
        some (t.interval_id.getD 0,
          (t.planned_duration_seconds * 1000 - t.compute_remaining_ms now) / 1000)) := by
  constructor
  · intro hot
    have hc : t.cancel now =
        (Except.ok 0,
          { t with
            state := .Idle
            end_instant := none
            remaining_ms := 0
            overtime := false
            overtime_start := none
            interval_id := none }) := by
      simp [TimerInner.cancel, h, hot]
    exact ⟨hc, by simp [cancel_timer, hc, hot]⟩
  · intro hot
    have hle : (t.planned_duration_seconds * 1000 - t.compute_remaining_ms now) / 1000
        ≤ U32_MAX := by
      have hd1 : (t.planned_duration_seconds * 1000 - t.compute_remaining_ms now) / 1000
          ≤ t.planned_duration_seconds * 1000 / 1000 :=
        Nat.div_le_div_right (Nat.sub_le _ _)
      have hd2 : t.planned_duration_seconds * 1000 / 1000 = t.planned_duration_seconds :=
        Nat.mul_div_cancel _ (by norm_num)
      unfold U32_MAX
      omega
    have hc : t.cancel now =
        (Except.ok ((t.planned_duration_seconds * 1000 - t.compute_remaining_ms now) / 1000),
          { t with
            state := .Idle
            end_instant := none
            remaining_ms := 0
            overtime := false
            overtime_start := none }) := by
      simp [TimerInner.cancel, h, hot, hle]
    exact ⟨hc, by simp [cancel_timer, hc, hot]⟩

/-- Witness for C3: cancelling the overtime session writes nothing and
returns 0; cancelling the paused session (3000 of 5000 ms left) returns 2
elapsed seconds and writes the cancellation record for interval 7. -/
theorem cancel_two_cases_witness :
    (fixOvertime.cancel 4000 =
      (Except.ok 0,
        { fixOvertime with
          state := .Idle
          end_instant := none
          remaining_ms := 0
          overtime := false
          overtime_start := none
          interval_id := none }) ∧
      (cancel_timer fixOvertime 4000).dbCancelWrite = none) ∧
    (fixPaused.cancel 4000 =
      (Except.ok ((fixPaused.planned_duration_seconds * 1000 -
          fixPaused.compute_remaining_ms 4000) / 1000),
        { fixPaused with
          state := .Idle
          end_instant := none
          remaining_ms := 0
          overtime := false
          overtime_start := none }) ∧
      (cancel_timer fixPaused 4000).dbCancelWrite =
        some (fixPaused.interval_id.getD 0,
          (fixPaused.planned_duration_seconds * 1000 -
            fixPaused.compute_remaining_ms 4000) / 1000)) :=
  ⟨(cancel_two_cases fixOvertime 4000 (by decide) (by decide)).1 rfl,
   (cancel_two_cases fixPaused 4000 (by decide) (by decide)).2 rfl⟩

/-- C5: a `start_timer` request with `duration_seconds = 0` is rejected with
the invalid-argument error before any effect: the session is returned
unchanged, no interval row is inserted, the overtime setting is not read,
and the engine's `start` is never invoked. -/
theorem start_timer_rejects_zero_duration (t : TimerInner) (it : IntervalType)
    (sv : Option String) (id : Int) (now : Nat) :
    start_timer t it 0 sv id now =
      ⟨Except.error "Duration must be greater than zero", t, none, false, false⟩ :=
  rfl

/-- The engine `start` leaves `break_overtime_enabled` unchanged in both of
its branches. -/
theorem start_preserves_boe (t : TimerInner) (it : IntervalType) (d : Nat)
    (id : Int) (now : Nat) :
    ((t.start it d id now).2).break_overtime_enabled = t.break_overtime_enabled := by
  unfold TimerInner.start
  split <;> rfl

/-- For a nonzero duration, the session `start_timer` leaves behind is the
one produced by the engine `start` after the command stored the parsed
overtime setting. -/
theorem start_timer_timer_eq (t : TimerInner) (it : IntervalType) (d : Nat)
    (sv : Option String) (id : Int) (now : Nat) (hd : d ≠ 0) :
    (start_timer t it d sv id now).timer =
      (({ t with break_overtime_enabled :=
          ((match sv with
            | some v => v
            | none => "false") == "true") }).start it d id now).2 := by
  rcases hres : ({ t with break_overtime_enabled :=
      ((match sv with
        | some v => v
        | none => "false") == "true") }).start it d id now with ⟨r, t₂⟩
  cases r <;> simp [start_timer, hd, hres]

/-- C10: when the `break_overtime_enabled` settings row is missing or its
read fails (modelled by `settingVal = none`, which the source maps to
`"false"`), `start_timer` proceeds with overtime disabled instead of
failing, and only the exact string `"true"` enables overtime. -/
theorem missing_overtime_setting_defaults_to_false (t : TimerInner)
    (it : IntervalType) (d : Nat) (id : Int) (now : Nat) (hd : d ≠ 0) :
    (start_timer t it d none id now).timer.break_overtime_enabled = false ∧
    (t.state = .Idle → ∃ st, (start_timer t it d none id now).result = Except.ok st) ∧
    (∀ v : String,
      (start_timer t it d (some v) id now).timer.break_overtime_enabled = (v == "true")) := by
  refine ⟨?_, ?_, ?_⟩
  · rw [start_timer_timer_eq t it d none id now hd, start_preserves_boe]
    rfl
  · intro hidle
    have hstart : ({ t with break_overtime_enabled := false }).start it d id now =
        (Except.ok (),
          { t with
            break_overtime_enabled := false
            state := .Running
            interval_type := it
            planned_duration_seconds := d
            interval_id := some id
            end_instant := some (now + d * 1000)
            remaining_ms := d * 1000 }) := by
      simp [TimerInner.start, hidle]
    have hres : (start_timer t it d none id now).result =
        Except.ok (((start_timer t it d none id now).timer).status now) := by
      simp [start_timer, hd, hstart]
    exact ⟨_, hres⟩
  · intro v
    rw [start_timer_timer_eq t it d (some v) id now hd, start_preserves_boe]

/-- Witness for C10: with the settings row missing the session starts with
overtime disabled and the command succeeds; `"True"` does not enable
overtime, `"true"` does. -/
theorem missing_overtime_setting_defaults_to_false_witness :
    (start_timer TimerInner.new .Work 5 none 1 0).timer.break_overtime_enabled = false ∧
    (∃ st, (start_timer TimerInner.new .Work 5 none 1 0).result = Except.ok st) ∧
    (start_timer TimerInner.new .Work 5 (some "True") 1 0).timer.break_overtime_enabled =
      ("True" == "true") ∧
    (start_timer TimerInner.new .Work 5 (some "true") 1 0).timer.break_overtime_enabled =
      ("true" == "true") :=
  ⟨(missing_overtime_setting_defaults_to_false TimerInner.new .Work 5 1 0 (by decide)).1,
   (missing_overtime_setting_defaults_to_false TimerInner.new .Work 5 1 0 (by decide)).2.1 rfl,
   (missing_overtime_setting_defaults_to_false TimerInner.new .Work 5 1 0 (by decide)).2.2 "True",
   (missing_overtime_setting_defaults_to_false TimerInner.new .Work 5 1 0 (by decide)).2.2 "true"⟩

/-- C7: for a running session, `pause` at `now₁` followed by `resume` at
`now₂ ≥ now₁` never increases the computed remaining time above the
pre-pause value, changes it by at most the wall time elapsed between the two
calls, and (in fact exactly) preserves it, so with no time elapsing it is
unchanged. -/
theorem pause_resume_remaining_bounds (t t₁ t₂ : TimerInner) (now₁ now₂ : Nat)
    (h12 : now₁ ≤ now₂)
    (hp : t.pause now₁ = (Except.ok (), t₁))
    (hr : t₁.resume now₂ = (Except.ok (), t₂)) :
    t₂.compute_remaining_ms now₂ ≤ t.compute_remaining_ms now₁ ∧
    t.compute_remaining_ms now₁ - t₂.compute_remaining_ms now₂ ≤ now₂ - now₁ ∧
    t₂.compute_remaining_ms now₂ = t.compute_remaining_ms now₁ := by
  obtain ⟨hrun, rfl⟩ := pause_ok_inv hp
  obtain ⟨-, rfl⟩ := resume_ok_inv hr
  set r0 := t.compute_remaining_ms now₁ with hr0
  have heq :
      TimerInner.compute_remaining_ms
        { t with
          remaining_ms := r0
          state := .Running
          end_instant := some (now₂ + r0) } now₂ = r0 := by
    by_cases hov : t.overtime
    · have h0 : r0 = 0 := by simp [hr0, TimerInner.compute_remaining_ms, hov]
      simp [TimerInner.compute_remaining_ms, hov, h0]
    · simp only [TimerInner.compute_remaining_ms, hov, Bool.false_eq_true, if_false]
      split <;> omega
  refine ⟨?_, ?_, ?_⟩ <;> simp_all

/-- Witness for C7: the running work session paused at 2000 ms and resumed
at 2600 ms still has 3000 ms remaining. -/
theorem pause_resume_remaining_bounds_witness :
    fixMidResumed.compute_remaining_ms 2600 ≤ fixRunning.compute_remaining_ms 2000 ∧
    fixRunning.compute_remaining_ms 2000 - fixMidResumed.compute_remaining_ms 2600 ≤
      2600 - 2000 ∧
    fixMidResumed.compute_remaining_ms 2600 = fixRunning.compute_remaining_ms 2000 :=
  pause_resume_remaining_bounds fixRunning fixMidPaused fixMidResumed 2000 2600
    (by decide) rfl rfl

/-- C8: the scheduler never completes a session that is not running: an
iteration that observes `state ≠ Running` in its first critical section
terminates with no effect; whenever `complete()` is invoked the re-checked
state under the lock was `Running`; and at a deadline crossing whose
re-check observes `state ≠ Running` the iteration exits without calling
`complete`, without emitting a complete event and without a persistence
finalization. -/
theorem scheduler_never_completes_nonrunning (t₁ t₂ : TimerInner) (now : Nat) :
    (t₁.state ≠ .Running → tick_iteration t₁ t₂ now = ⟨t₂, true, false, false, none⟩) ∧
    ((tick_iteration t₁ t₂ now).calledComplete = true → t₂.state = .Running) ∧
    (∀ e, t₁.state = .Running → t₁.overtime = false → t₁.end_instant = some e →
      e ≤ now → t₂.state ≠ .Running →
      tick_iteration t₁ t₂ now = ⟨t₂, true, false, false, none⟩) := by
  refine ⟨?_, ?_, ?_⟩
  · intro h
    simp [tick_iteration, h]
  · intro hc
    unfold tick_iteration at hc
    split at hc
    · simp at hc
    · split at hc
      · simp at hc
      · split at hc
        · simp at hc
        · split at hc
          · split at hc
            · split at hc
              · simp at hc
              · next hs => exact not_not.mp hs
            · split at hc
              · simp at hc
              · next hs => exact not_not.mp hs
          · simp at hc
  · intro e h hov hend hle h₂
    simp only [tick_iteration, h, hov, hend, hle, if_true, Bool.false_eq_true, if_false]
    split <;> simp [h₂]

/-- Witness for C8: a paused first observation terminates the task; the
crossed deadline of the running work session with an idle re-check exits
with no completion, no event and no write; and the iteration that does
complete re-checked a running state. -/
theorem scheduler_never_completes_nonrunning_witness :
    tick_iteration fixPaused fixRunning 0 = ⟨fixRunning, true, false, false, none⟩ ∧
    tick_iteration fixRunning TimerInner.new 5000 =
      ⟨TimerInner.new, true, false, false, none⟩ ∧
    fixRunning.state = .Running :=
  ⟨(scheduler_never_completes_nonrunning fixPaused fixRunning 0).1 (by decide),
   (scheduler_never_completes_nonrunning fixRunning TimerInner.new 5000).2.2 5000
     rfl rfl rfl (by decide) (by decide),
   (scheduler_never_completes_nonrunning fixRunning fixRunning 5000).2.1 rfl⟩

/-- C2 (amended): in every reachable session state, a `Some` deadline implies
`state = Running`, and a `Running` session with `overtime = false` has a
`Some` deadline.  (The full claimed equivalence fails: pausing and resuming
during overtime yields a `Running` session with `overtime = true` and a
`Some` deadline, see the counterexample.) -/
theorem deadline_invariant_amended (t : TimerInner) (h : Reachable t) :
    (t.end_instant.isSome = true → t.state = .Running) ∧
    (t.state = .Running → t.overtime = false → t.end_instant.isSome = true) := by
  induction h with
  | init =>
    refine ⟨?_, ?_⟩ <;> intro h1 <;> simp [TimerInner.new] at h1
  | step hr hs ih =>
    cases hs with
    | start it d id b now hok =>
      obtain ⟨-, rfl⟩ := start_ok_inv hok
      exact ⟨fun _ => rfl, fun _ _ => rfl⟩
    | pause now hok =>
      obtain ⟨-, rfl⟩ := pause_ok_inv hok
      refine ⟨?_, ?_⟩ <;> intro h1 <;> simp at h1
    | resume now hok =>
      obtain ⟨-, rfl⟩ := resume_ok_inv hok
      exact ⟨fun _ => rfl, fun _ _ => rfl⟩
    | cancel now e hok =>
      obtain ⟨-, hst, hend, -⟩ := cancel_ok_inv hok
      refine ⟨?_, ?_⟩ <;> intro h1
      · simp [hend] at h1
      · simp [hst] at h1
    | complete hrun =>
      refine ⟨?_, ?_⟩ <;> intro h1 <;> simp [TimerInner.complete] at h1
    | reenter κ now hrun =>
      refine ⟨?_, ?_⟩ <;> intro h1
      · simp [overtime_reenter, TimerInner.enter_overtime, TimerInner.complete] at h1
      · intro h2
        simp [overtime_reenter, TimerInner.enter_overtime] at h2

/-- Witness for C2 (amended) at the initial session, which is reachable by
construction. -/
theorem deadline_invariant_amended_witness :
    (TimerInner.new.end_instant.isSome = true → TimerInner.new.state = .Running) ∧
    (TimerInner.new.state = .Running → TimerInner.new.overtime = false →
      TimerInner.new.end_instant.isSome = true) :=
  deadline_invariant_amended TimerInner.new Reachable.init

/-- C2 counterexample: the claimed equivalence
`deadline.is_some ↔ (Running ∧ ¬overtime)` fails on a reachable state.
Start a one-second short break with overtime enabled, let the scheduler
re-enter overtime at the deadline, then pause and resume during overtime:
the session is `Running` with `overtime = true` yet its deadline is
`some 3000`. -/
theorem deadline_invariant_counterexample :
    ¬ (∀ t : TimerInner, Reachable t →
        (t.end_instant.isSome = true ↔ (t.state = .Running ∧ t.overtime = false))) := by
  intro hclaim
  have s1 : Step TimerInner.new cex1 :=
    Step.start .ShortBreak 1 1 true 0 rfl
  have s2 : Step cex1 cex2 := Step.reenter .ShortBreak 1000 rfl
  have s3 : Step cex2 cex3 := Step.pause 2000 rfl
  have s4 : Step cex3 cex4 := Step.resume 3000 rfl
  have hreach : Reachable cex4 :=
    Reachable.step (Reachable.step (Reachable.step (Reachable.step Reachable.init s1) s2) s3) s4
  have h4 := (hclaim cex4 hreach).mp rfl
  exact absurd h4.2 (by decide)

end Pomo
